import Mathlib

/-!
Shallow embedding of the analytics core of the health-agent backend
(src/backend/services/ml_models/): the FINDRISC diabetes score, the
metabolic-syndrome criteria counter, the Framingham cardiovascular risk
model, and the trend / anomaly / health-score engine.

Modelling conventions:
* Python floats are modelled as exact rationals wherever the code only
  performs field operations and comparisons; the Framingham model and the
  Z-score detector, which use log / exp / pow / sqrt, are modelled over the
  real numbers.
* Python round(x) and round(x, d) are modelled with the Mathlib round
  function (round half up).  Python rounds ties to even, but no claim and
  no theorem below exercises an exact tie.
* Python int(x) truncates toward zero; this is ratTrunc below.
* Free-text narrative fields (messages, summaries, recommendation lists)
  are product copy, not algorithmic contract (spec section 4.4); result
  records keep the numeric, enumeration and label fields only.
-/

namespace HealthAgent

/-- Truncation toward zero of a rational, the behaviour of the Python int
conversion applied to a float. -/
def ratTrunc (q : ℚ) : ℤ :=
  if 0 ≤ q then ⌊q⌋ else ⌈q⌉

/-- Rounds a rational to one decimal place, modelling round(x, 1). -/
def qRound1 (q : ℚ) : ℚ :=
  (round (q * 10) : ℚ) / 10

/-- Rounds a rational to two decimal places, modelling round(x, 2). -/
def qRound2 (q : ℚ) : ℚ :=
  (round (q * 100) : ℚ) / 100

/-! ## FINDRISC diabetes risk model (diabetes.py) -/

/-- Input record of the FINDRISC calculator (DiabetesRiskInput). -/
structure DiabetesRiskInput where
  age : ℤ
  bmi : ℚ
  waist : ℚ
  gender : String
  on_bp_medication : Bool
  history_high_glucose : Bool
  daily_physical_activity : Bool
  daily_fruit_vegetable : Bool
  family_diabetes : String

namespace FINDRISC

/-- Age sub-score (FINDRISCCalculator._score_age). -/
def score_age (age : ℤ) : ℕ :=
  if age < 45 then 0
  else if age < 55 then 2
  else if age < 65 then 3
  else 4

/-- BMI sub-score (FINDRISCCalculator._score_bmi). -/
def score_bmi (bmi : ℚ) : ℕ :=
  if bmi < 25 then 0
  else if bmi < 30 then 1
  else 3

/-- Waist sub-score with sex-specific thresholds (FINDRISCCalculator._score_waist). -/
def score_waist (waist : ℚ) (gender : String) : ℕ :=
  if gender = "男" then
    if waist < 94 then 0
    else if waist < 102 then 3
    else 4
  else
    if waist < 80 then 0
    else if waist < 88 then 3
    else 4

/-- Family-history sub-score (FINDRISCCalculator._score_family_history). -/
def score_family_history (family : String) : ℕ :=
  if family = "first_degree" then 5
  else if family = "second_degree" then 3
  else 0

/-- Risk tier and literal risk percentage from the total score
(FINDRISCCalculator._get_risk_level). -/
def get_risk_level (score : ℕ) : String × ℚ :=
  if score < 7 then ("low", 1)
  else if score < 12 then ("low", 4)
  else if score < 15 then ("medium", 17)
  else if score < 21 then ("high", 33)
  else ("high", 50)

/-- Result record of the FINDRISC calculator (contract fields of the
returned dictionary). -/
structure Output where
  total_score : ℕ
  risk_percentage : ℚ
  risk_level : String
  score : ℤ
  deriving DecidableEq

/-- FINDRISCCalculator.calculate: the eight sub-scores are accumulated into
total_score, then tier, literal percentage and the 0-100 normalized score
are derived from it. -/
def calculate (d : DiabetesRiskInput) : Output :=
  let age_score := score_age d.age
  let bmi_score := score_bmi d.bmi
  let waist_score := score_waist d.waist d.gender
  let activity_score := if d.daily_physical_activity then 0 else 2
  let diet_score := if d.daily_fruit_vegetable then 0 else 1
  let bp_med_score := if d.on_bp_medication then 2 else 0
  let glucose_score := if d.history_high_glucose then 5 else 0
  let family_score := score_family_history d.family_diabetes
  let total_score := age_score + bmi_score + waist_score + activity_score +
    diet_score + bp_med_score + glucose_score + family_score
  let rl := get_risk_level total_score
  let normalized_score := min 100 (ratTrunc ((total_score : ℚ) * 100 / 26))
  { total_score := total_score
    risk_percentage := rl.2
    risk_level := rl.1
    score := normalized_score }

end FINDRISC

/-! ## Metabolic syndrome model (metabolic.py) -/

/-- Input record of the metabolic-syndrome calculator (MetabolicRiskInput). -/
structure MetabolicRiskInput where
  waist : ℚ
  gender : String
  triglycerides : ℚ
  hdl_cholesterol : ℚ
  systolic_bp : ℚ
  diastolic_bp : ℚ
  fasting_glucose : ℚ
  on_bp_medication : Bool
  on_lipid_medication : Bool
  on_glucose_medication : Bool

namespace MetabolicSyndrome

/-- Sex-specific waist threshold, WAIST_THRESHOLD.get(gender, 90). -/
def waist_threshold (gender : String) : ℚ :=
  if gender = "男" then 90
  else if gender = "女" then 80
  else 90

/-- Sex-specific HDL threshold, HDL_THRESHOLD.get(gender, 40). -/
def hdl_threshold (gender : String) : ℚ :=
  if gender = "男" then 40
  else if gender = "女" then 50
  else 40

/-- Criterion 1: abdominal obesity. -/
def waist_met (d : MetabolicRiskInput) : Bool :=
  waist_threshold d.gender ≤ d.waist

/-- Criterion 2: elevated triglycerides or on lipid medication. -/
def tg_met (d : MetabolicRiskInput) : Bool :=
  150 ≤ d.triglycerides || d.on_lipid_medication

/-- Criterion 3: low HDL or on lipid medication. -/
def hdl_met (d : MetabolicRiskInput) : Bool :=
  d.hdl_cholesterol < hdl_threshold d.gender || d.on_lipid_medication

/-- Criterion 4: elevated blood pressure or on BP medication. -/
def bp_met (d : MetabolicRiskInput) : Bool :=
  130 ≤ d.systolic_bp || 85 ≤ d.diastolic_bp || d.on_bp_medication

/-- Criterion 5: elevated fasting glucose or on glucose medication. -/
def glucose_met (d : MetabolicRiskInput) : Bool :=
  (56 / 10 : ℚ) ≤ d.fasting_glucose || d.on_glucose_medication

/-- Risk level from the number of criteria met
(MetabolicSyndromeCalculator._get_risk_level). -/
def get_risk_level (criteria_met : ℕ) : String :=
  if criteria_met = 0 then "low"
  else if criteria_met ≤ 2 then "medium"
  else "high"

/-- Result record of the metabolic-syndrome calculator (contract fields). -/
structure Output where
  has_metabolic_syndrome : Bool
  criteria_met : ℕ
  risk_level : String
  score : ℕ
  deriving DecidableEq

/-- MetabolicSyndromeCalculator.calculate: counts the five criteria, then
derives the diagnosis, the risk level and the 0-100 score. -/
def calculate (d : MetabolicRiskInput) : Output :=
  let criteria_met : ℕ :=
    (if waist_met d then 1 else 0) + (if tg_met d then 1 else 0) +
    (if hdl_met d then 1 else 0) + (if bp_met d then 1 else 0) +
    (if glucose_met d then 1 else 0)
  { has_metabolic_syndrome := decide (3 ≤ criteria_met)
    criteria_met := criteria_met
    risk_level := get_risk_level criteria_met
    score := criteria_met * 20 }

end MetabolicSyndrome

/-! ## Trend analyzer (trend_analysis.py, class TrendAnalyzer) -/

namespace TrendAnalyzer

/-- TrendAnalyzer.calculate_moving_average: inputs shorter than the window
are returned unchanged; otherwise index i takes the average of the prefix
up to i while i is below window - 1, and the trailing window average
afterwards. -/
def calculate_moving_average (data : List ℚ) (window : ℕ) : List ℚ :=
  if data.length < window then data
  else
    (List.range data.length).map fun i =>
      if i < window - 1 then (data.take (i + 1)).sum / (i + 1)
      else ((data.drop (i + 1 - window)).take window).sum / window

/-- TrendAnalyzer.linear_regression: ordinary least squares of value
against index. -/
def linear_regression (data : List ℚ) : ℚ × ℚ :=
  let n := data.length
  if n < 2 then
    (0, match data with
        | [] => 0
        | x :: _ => x)
  else
    let x_mean : ℚ := ((n : ℚ) - 1) / 2
    let y_mean : ℚ := data.sum / n
    let numerator :=
      (data.enum.map fun p => ((p.1 : ℚ) - x_mean) * (p.2 - y_mean)).sum
    let denominator :=
      ((List.range n).map fun i => ((i : ℚ) - x_mean) ^ 2).sum
    if denominator = 0 then (0, y_mean)
    else
      let slope := numerator / denominator
      (slope, y_mean - slope * x_mean)

/-- TrendAnalyzer.predict_next_values: flat forecast below 3 points,
otherwise the regression line over the last at most 14 points extrapolated
steps points ahead. -/
def predict_next_values (data : List ℚ) (steps : ℕ) : List ℚ :=
  if data.length < 3 then
    match data with
    | [] => List.replicate steps 0
    | _ => List.replicate steps data.getLastI
  else
    let recent_data := if 14 < data.length then data.drop (data.length - 14) else data
    let si := linear_regression recent_data
    let n := recent_data.length
    (List.range steps).map fun i => si.1 * ((n : ℚ) + i) + si.2

/-- Result record of TrendAnalyzer.analyze_trend; the narrative analysis
string is product copy and not modelled. -/
structure TrendResult where
  direction : String
  strength : String
  change_rate : ℚ
  prediction : List ℚ
  moving_avg : List ℚ
  deriving DecidableEq

/-- TrendAnalyzer.analyze_trend (the metric_type argument feeds only the
narrative string and is not modelled). -/
def analyze_trend (data : List ℚ) : TrendResult :=
  if data.length < 3 then
    { direction := "unknown"
      strength := "unknown"
      change_rate := 0
      prediction := []
      moving_avg := data }
  else
    let moving_avg := calculate_moving_average data 7
    let slope :=
      (linear_regression (if 14 < data.length then data.drop (data.length - 14) else data)).1
    let change_rate : ℚ :=
      if data.headI ≠ 0 then (data.getLastI - data.headI) / data.headI * 100 else 0
    let direction :=
      if |slope| < 1 / 10 then "stable"
      else if 0 < slope then "rising"
      else "falling"
    let strength :=
      if |slope| < 1 / 2 then "weak"
      else if |slope| < 2 then "moderate"
      else "strong"
    let predictions := predict_next_values data 7
    { direction := direction
      strength := strength
      change_rate := qRound2 change_rate
      prediction := predictions.map qRound1
      moving_avg := moving_avg.map qRound1 }

end TrendAnalyzer

/-! ## Anomaly detector (trend_analysis.py, class AnomalyDetector) -/

namespace AnomalyDetector

/-- Ascending insertion of one element, auxiliary to pySorted. -/
def insertAsc (x : ℚ) : List ℚ → List ℚ
  | [] => [x]
  | y :: ys => if x ≤ y then x :: y :: ys else y :: insertAsc x ys

/-- Ascending insertion sort, modelling the Python sorted builtin applied
to a list of floats. -/
def pySorted : List ℚ → List ℚ
  | [] => []
  | x :: xs => insertAsc x (pySorted xs)

/-- One anomaly record produced by AnomalyDetector.detect_iqr. -/
structure IqrAnomaly where
  index : ℕ
  value : ℚ
  lower_bound : ℚ
  upper_bound : ℚ
  type : String
  deriving DecidableEq

/-- AnomalyDetector.detect_iqr: quartiles are taken at the
integer-division indices n / 4 and 3 * n / 4 of the sorted data, and the
values strictly outside [q1 - m * iqr, q3 + m * iqr] are flagged. -/
def detect_iqr (data : List ℚ) (multiplier : ℚ) : List IqrAnomaly :=
  if data.length < 4 then []
  else
    let sorted_data := pySorted data
    let n := sorted_data.length
    let q1 := sorted_data.getD (n / 4) 0
    let q3 := sorted_data.getD (3 * n / 4) 0
    let iqr := q3 - q1
    let lower_bound := q1 - multiplier * iqr
    let upper_bound := q3 + multiplier * iqr
    data.enum.filterMap fun p =>
      if p.2 < lower_bound ∨ upper_bound < p.2 then
        some { index := p.1
               value := p.2
               lower_bound := qRound1 lower_bound
               upper_bound := qRound1 upper_bound
               type := if upper_bound < p.2 then "high" else "low" }
      else none

/-- One anomaly record produced by AnomalyDetector.detect_zscore. -/
structure ZscoreAnomaly where
  index : ℕ
  value : ℝ
  zscore : ℝ
  type : String

/-- Population mean of detect_zscore. -/
noncomputable def zmean (data : List ℝ) : ℝ :=
  data.sum / (data.length : ℝ)

/-- Population variance of detect_zscore. -/
noncomputable def zvariance (data : List ℝ) : ℝ :=
  (data.map fun x => (x - zmean data) ^ 2).sum / (data.length : ℝ)

/-- Standard deviation of detect_zscore, with a floor of 1 when the
variance is not positive. -/
noncomputable def zstd (data : List ℝ) : ℝ :=
  if 0 < zvariance data then Real.sqrt (zvariance data) else 1

/-- Body of AnomalyDetector.detect_zscore without the initial
short-length guard: flags the indices whose absolute z-score exceeds the
threshold. -/
noncomputable def zscore_body (data : List ℝ) (threshold : ℝ) : List ZscoreAnomaly :=
  data.enum.filterMap fun p =>
    let zscore := (p.2 - zmean data) / zstd data
    if threshold < |zscore| then
      some { index := p.1
             value := p.2
             zscore := (round (zscore * 100) : ℝ) / 100
             type := if 0 < zscore then "high" else "low" }
    else none

/-- AnomalyDetector.detect_zscore: returns no anomalies below 3 points,
otherwise runs the z-score rule. -/
noncomputable def detect_zscore (data : List ℝ) (threshold : ℝ) : List ZscoreAnomaly :=
  if data.length < 3 then [] else zscore_body data threshold

/-- Threshold row of AnomalyDetector.MEDICAL_THRESHOLDS; the weight row
carries no critical_low/low/high/critical_high keys, hence the options. -/
structure MedicalThresholds where
  critical_low : Option ℚ
  low : Option ℚ
  high : Option ℚ
  critical_high : Option ℚ
  unit : String

/-- AnomalyDetector.MEDICAL_THRESHOLDS as a partial lookup table. -/
def MEDICAL_THRESHOLDS (metric_type : String) : Option MedicalThresholds :=
  if metric_type = "heart_rate" then
    some { critical_low := some 40, low := some 50, high := some 100,
           critical_high := some 120, unit := "bpm" }
  else if metric_type = "blood_pressure_sys" then
    some { critical_low := some 80, low := some 90, high := some 140,
           critical_high := some 180, unit := "mmHg" }
  else if metric_type = "blood_pressure_dia" then
    some { critical_low := some 50, low := some 60, high := some 90,
           critical_high := some 120, unit := "mmHg" }
  else if metric_type = "blood_sugar" then
    some { critical_low := some 3, low := some (39 / 10), high := some (61 / 10),
           critical_high := some (111 / 10), unit := "mmol/L" }
  else if metric_type = "spo2" then
    some { critical_low := some 90, low := some 94, high := some 100,
           critical_high := some 100, unit := "%" }
  else if metric_type = "weight" then
    some { critical_low := none, low := none, high := none,
           critical_high := none, unit := "kg" }
  else none

/-- One medical-threshold classification (message string is product copy
and not modelled). -/
structure MedicalAnomaly where
  value : ℚ
  metric_type : String
  unit : String
  severity : String
  type : String
  deriving DecidableEq

/-- AnomalyDetector.detect_medical_anomaly: classifies one reading
against the fixed threshold table; none both for metrics without a table
row, for the weight row (which has no critical_low key), and for normal
readings. -/
def detect_medical_anomaly (value : ℚ) (metric_type : String) : Option MedicalAnomaly :=
  match MEDICAL_THRESHOLDS metric_type with
  | none => none
  | some t =>
    match t.critical_low, t.low, t.high, t.critical_high with
    | some cl, some lo, some hi, some ch =>
      if value ≤ cl then
        some { value := value, metric_type := metric_type, unit := t.unit,
               severity := "critical", type := "low" }
      else if value ≤ lo then
        some { value := value, metric_type := metric_type, unit := t.unit,
               severity := "warning", type := "low" }
      else if ch ≤ value then
        some { value := value, metric_type := metric_type, unit := t.unit,
               severity := "critical", type := "high" }
      else if hi ≤ value then
        some { value := value, metric_type := metric_type, unit := t.unit,
               severity := "warning", type := "high" }
      else none
    | _, _, _, _ => none

end AnomalyDetector

/-! ## Health score calculator (trend_analysis.py, class HealthScoreCalculator) -/

/-- Metric values handed to HealthScoreCalculator.calculate_overall_score;
a field is none when the corresponding key is absent from the input
mapping. -/
structure HealthMetrics where
  heart_rate : Option ℚ := none
  blood_pressure_sys : Option ℚ := none
  blood_pressure_dia : Option ℚ := none
  blood_sugar : Option ℚ := none
  sleep_duration : Option ℚ := none
  steps : Option ℚ := none
  spo2 : Option ℚ := none
  bmi : Option ℚ := none

namespace HealthScoreCalculator

/-- Category weights (HealthScoreCalculator.WEIGHTS). -/
def WEIGHTS (category : String) : ℚ :=
  if category = "heart_rate" then 15 / 100
  else if category = "blood_pressure" then 20 / 100
  else if category = "blood_sugar" then 15 / 100
  else if category = "sleep" then 15 / 100
  else if category = "activity" then 15 / 100
  else if category = "weight" then 10 / 100
  else if category = "spo2" then 10 / 100
  else 0

/-- Optimal and normal band per metric type, the ranges table of
HealthScoreCalculator.calculate_metric_score. -/
def score_ranges (metric_type : String) : Option ((ℚ × ℚ) × (ℚ × ℚ)) :=
  if metric_type = "heart_rate" then some ((60, 80), (50, 100))
  else if metric_type = "blood_pressure_sys" then some ((100, 120), (90, 140))
  else if metric_type = "blood_pressure_dia" then some ((60, 80), (60, 90))
  else if metric_type = "blood_sugar" then some ((4, 55 / 10), (39 / 10, 61 / 10))
  else if metric_type = "spo2" then some ((97, 100), (94, 100))
  else if metric_type = "sleep_duration" then some ((7, 8), (6, 9))
  else if metric_type = "steps" then some ((8000, 12000), (5000, 15000))
  else if metric_type = "bmi" then some ((185 / 10, 24), (185 / 10, 28))
  else none

/-- HealthScoreCalculator.calculate_metric_score: 95 inside the optimal
band, 70 plus a 0-20 linear part inside the normal band, a 0-70 linear
part (clamped at 0) outside it, 70 for unknown metric types. -/
def calculate_metric_score (value : ℚ) (metric_type : String) : ℚ :=
  match score_ranges metric_type with
  | none => 70
  | some r =>
    let optimal := r.1
    let normal := r.2
    if optimal.1 ≤ value ∧ value ≤ optimal.2 then 95
    else if normal.1 ≤ value ∧ value ≤ normal.2 then
      let frac :=
        if value < optimal.1 then (value - normal.1) / (optimal.1 - normal.1)
        else (normal.2 - value) / (normal.2 - optimal.2)
      70 + frac * 20
    else
      let frac :=
        if value < normal.1 then max 0 (value / normal.1)
        else max 0 (1 - (value - normal.2) / normal.2)
      frac * 70

/-- One present category: name, raw (unrounded) category score, weight.
Empty when the category is absent from the input. -/
def category_entry (name : String) (weight : ℚ) : Option ℚ → List (String × ℚ × ℚ)
  | none => []
  | some s => [(name, s, weight)]

/-- Categories present in the input, in the order the source walks them:
heart rate, blood pressure (requires both sub-metrics), blood sugar,
sleep, activity, SpO2, weight/BMI. -/
def category_list (m : HealthMetrics) : List (String × ℚ × ℚ) :=
  category_entry "heart_rate" (WEIGHTS "heart_rate")
    (m.heart_rate.map fun v => calculate_metric_score v "heart_rate") ++
  category_entry "blood_pressure" (WEIGHTS "blood_pressure")
    (match m.blood_pressure_sys, m.blood_pressure_dia with
     | some s, some d =>
       some ((calculate_metric_score s "blood_pressure_sys" +
              calculate_metric_score d "blood_pressure_dia") / 2)
     | _, _ => none) ++
  category_entry "blood_sugar" (WEIGHTS "blood_sugar")
    (m.blood_sugar.map fun v => calculate_metric_score v "blood_sugar") ++
  category_entry "sleep" (WEIGHTS "sleep")
    (m.sleep_duration.map fun v => calculate_metric_score v "sleep_duration") ++
  category_entry "activity" (WEIGHTS "activity")
    (m.steps.map fun v => calculate_metric_score v "steps") ++
  category_entry "spo2" (WEIGHTS "spo2")
    (m.spo2.map fun v => calculate_metric_score v "spo2") ++
  category_entry "weight" (WEIGHTS "weight")
    (m.bmi.map fun v => calculate_metric_score v "bmi")

/-- Result record of HealthScoreCalculator.calculate_overall_score
(summary string is product copy and not modelled). -/
structure OverallResult where
  overall_score : ℤ
  category_scores : List (String × ℤ)
  level : String
  deriving DecidableEq

/-- HealthScoreCalculator.calculate_overall_score: weighted sum and total
weight accumulate only over present categories; the overall score is the
int conversion of their quotient, or the default 70 when no category is
present. -/
def calculate_overall_score (m : HealthMetrics) : OverallResult :=
  let cats := category_list m
  let weighted_sum := (cats.map fun c => c.2.1 * c.2.2).sum
  let total_weight := (cats.map fun c => c.2.2).sum
  let overall_score : ℤ :=
    if 0 < total_weight then ratTrunc (weighted_sum / total_weight) else 70
  let level :=
    if 90 ≤ overall_score then "excellent"
    else if 75 ≤ overall_score then "good"
    else if 60 ≤ overall_score then "fair"
    else "poor"
  { overall_score := overall_score
    category_scores := cats.map fun c => (c.1, round c.2.1)
    level := level }

end HealthScoreCalculator

/-! ## Framingham cardiovascular risk model (cardiovascular.py) -/

/-- Input record of the Framingham calculator (CardiovascularRiskInput).
The continuous fields are real-valued because the model feeds them to
log / exp / pow. -/
structure CardiovascularRiskInput where
  age : ℤ
  gender : String
  total_cholesterol : ℝ
  hdl_cholesterol : ℝ
  systolic_bp : ℝ
  on_bp_medication : Bool
  is_smoker : Bool
  has_diabetes : Bool

namespace Framingham

/-- Sex-specific coefficient row of the Framingham model. -/
structure Coefficients where
  ln_age : ℝ
  ln_total_chol : ℝ
  ln_hdl : ℝ
  ln_sbp_untreated : ℝ
  ln_sbp_treated : ℝ
  smoker : ℝ
  diabetes : ℝ
  baseline_survival : ℝ
  mean_coefficient_sum : ℝ

/-- FraminghamRiskCalculator.MALE_COEFFICIENTS. -/
noncomputable def MALE_COEFFICIENTS : Coefficients :=
  { ln_age := 306117 / 100000
    ln_total_chol := 112370 / 100000
    ln_hdl := -93263 / 100000
    ln_sbp_untreated := 193303 / 100000
    ln_sbp_treated := 199881 / 100000
    smoker := 65451 / 100000
    diabetes := 57367 / 100000
    baseline_survival := 88936 / 100000
    mean_coefficient_sum := 239802 / 10000 }

/-- FraminghamRiskCalculator.FEMALE_COEFFICIENTS. -/
noncomputable def FEMALE_COEFFICIENTS : Coefficients :=
  { ln_age := 232888 / 100000
    ln_total_chol := 120904 / 100000
    ln_hdl := -70833 / 100000
    ln_sbp_untreated := 276157 / 100000
    ln_sbp_treated := 282263 / 100000
    smoker := 52873 / 100000
    diabetes := 69154 / 100000
    baseline_survival := 95012 / 100000
    mean_coefficient_sum := 261931 / 10000 }

/-- Coefficient row selected by sex, is_male = gender == 男. -/
noncomputable def coefFor (d : CardiovascularRiskInput) : Coefficients :=
  if d.gender = "男" then MALE_COEFFICIENTS else FEMALE_COEFFICIENTS

/-- FraminghamRiskCalculator._validate_input as a predicate. -/
def Valid (d : CardiovascularRiskInput) : Prop :=
  30 ≤ d.age ∧ d.age ≤ 79 ∧ (d.gender = "男" ∨ d.gender = "女") ∧
  0 < d.total_cholesterol ∧ 0 < d.hdl_cholesterol ∧ 0 < d.systolic_bp

/-- The coefficient sum of FraminghamRiskCalculator.calculate, with the
treated BP coefficient iff on_bp_medication. -/
noncomputable def coefficient_sum (d : CardiovascularRiskInput) : ℝ :=
  let coef := coefFor d
  coef.ln_age * Real.log (d.age : ℝ) +
  coef.ln_total_chol * Real.log d.total_cholesterol +
  coef.ln_hdl * Real.log d.hdl_cholesterol +
  (if d.on_bp_medication then coef.ln_sbp_treated else coef.ln_sbp_untreated) *
    Real.log d.systolic_bp +
  (if d.is_smoker then coef.smoker else 0) +
  (if d.has_diabetes then coef.diabetes else 0)

/-- The 10-year risk, risk = 1 - baseline_survival ^ exp(coefficient_sum -
mean_coefficient_sum). -/
noncomputable def risk (d : CardiovascularRiskInput) : ℝ :=
  1 - (coefFor d).baseline_survival ^
    Real.exp (coefficient_sum d - (coefFor d).mean_coefficient_sum)

/-- Risk level from the rounded risk percentage
(FraminghamRiskCalculator._get_risk_level). -/
def get_risk_level (risk_percentage : ℚ) : String :=
  if risk_percentage < 10 then "low"
  else if risk_percentage < 20 then "medium"
  else "high"

/-- Result record of the Framingham calculator (contract fields). -/
structure Output where
  risk_percentage : ℚ
  risk_level : String
  score : ℤ
  deriving DecidableEq

open Classical in
/-- FraminghamRiskCalculator.calculate: the default unknown result on
invalid input, otherwise the rounded percentage of the risk, its tier,
and the normalized score min(100, int(risk_percentage * 3)). -/
noncomputable def calculate (d : CardiovascularRiskInput) : Output :=
  if Valid d then
    let risk_percentage : ℚ := (round (risk d * 100 * 10) : ℚ) / 10
    { risk_percentage := risk_percentage
      risk_level := get_risk_level risk_percentage
      score := min 100 (ratTrunc (risk_percentage * 3)) }
  else
    { risk_percentage := 0, risk_level := "unknown", score := 0 }

/-- Auxiliary exponent of a constructed input: the unique positive real u
with baseline_survival ^ u = 941 / 1000 for the male coefficients. -/
noncomputable def cexExponent : ℝ :=
  Real.log (941 / 1000) / Real.log MALE_COEFFICIENTS.baseline_survival

/-- Non-cholesterol coefficient terms of the constructed input (age 50,
HDL 50, untreated systolic 120). -/
noncomputable def cexBase : ℝ :=
  MALE_COEFFICIENTS.ln_age * Real.log ((50 : ℤ) : ℝ) +
  MALE_COEFFICIENTS.ln_hdl * Real.log (50 : ℝ) +
  MALE_COEFFICIENTS.ln_sbp_untreated * Real.log (120 : ℝ)

/-- Total cholesterol solving coefficient_sum = mean_coefficient_sum +
log cexExponent, so that the risk of the constructed input is exactly
59 / 1000. -/
noncomputable def cexChol : ℝ :=
  Real.exp ((MALE_COEFFICIENTS.mean_coefficient_sum + Real.log cexExponent - cexBase) /
    MALE_COEFFICIENTS.ln_total_chol)

/-- Constructed valid input whose 10-year risk is exactly 0.059, hence
whose rounded risk percentage is 5.9. -/
noncomputable def cexInput : CardiovascularRiskInput :=
  { age := 50
    gender := "男"
    total_cholesterol := cexChol
    hdl_cholesterol := 50
    systolic_bp := 120
    on_bp_medication := false
    is_smoker := false
    has_diabetes := false }

end Framingham

/-! ## Theorems -/

/-- Range of the age sub-score. -/
theorem FINDRISC.score_age_le (age : ℤ) : score_age age ≤ 4 := by
  unfold score_age; split_ifs <;> omega

/-- Range of the BMI sub-score. -/
theorem FINDRISC.score_bmi_le (bmi : ℚ) : score_bmi bmi ≤ 3 := by
  unfold score_bmi; split_ifs <;> omega

/-- Range of the waist sub-score. -/
theorem FINDRISC.score_waist_le (waist : ℚ) (gender : String) :
    score_waist waist gender ≤ 4 := by
  unfold score_waist; split_ifs <;> omega

/-- Range of the family-history sub-score. -/
theorem FINDRISC.score_family_history_le (family : String) :
    score_family_history family ≤ 5 := by
  unfold score_family_history; split_ifs <;> omega

/-- Unfolding of the total score of FINDRISCCalculator.calculate. -/
theorem FINDRISC.total_score_eq (d : DiabetesRiskInput) :
    (calculate d).total_score =
      score_age d.age + score_bmi d.bmi + score_waist d.waist d.gender +
      (if d.daily_physical_activity then 0 else 2) +
      (if d.daily_fruit_vegetable then 0 else 1) +
      (if d.on_bp_medication then 2 else 0) +
      (if d.history_high_glucose then 5 else 0) +
      score_family_history d.family_diabetes := rfl

/-- Unfolding of the risk level of FINDRISCCalculator.calculate. -/
theorem FINDRISC.risk_level_eq (d : DiabetesRiskInput) :
    (calculate d).risk_level = (get_risk_level (calculate d).total_score).1 := rfl

/-- Unfolding of the risk percentage of FINDRISCCalculator.calculate. -/
theorem FINDRISC.risk_percentage_eq (d : DiabetesRiskInput) :
    (calculate d).risk_percentage = (get_risk_level (calculate d).total_score).2 := rfl

/-- Unfolding of the normalized score of FINDRISCCalculator.calculate. -/
theorem FINDRISC.score_eq (d : DiabetesRiskInput) :
    (calculate d).score =
      min 100 (ratTrunc (((calculate d).total_score : ℚ) * 100 / 26)) := rfl

/-- C2 (amended): the FINDRISC total score is the exact sum of the 8
sub-scores and lies in [0, 26] (the lower bound being inherent to the ℕ
value), the (risk_level, risk_percentage) pair follows the exact tier
table with boundaries 7, 12, 15, 21, and the normalized score is
min(100, int(total_score * 100 / 26)) where int truncates toward zero —
not round, as the original claim stated. -/
theorem findrisc_calculate_spec (d : DiabetesRiskInput) :
    (FINDRISC.calculate d).total_score =
      FINDRISC.score_age d.age + FINDRISC.score_bmi d.bmi +
      FINDRISC.score_waist d.waist d.gender +
      (if d.daily_physical_activity then 0 else 2) +
      (if d.daily_fruit_vegetable then 0 else 1) +
      (if d.on_bp_medication then 2 else 0) +
      (if d.history_high_glucose then 5 else 0) +
      FINDRISC.score_family_history d.family_diabetes ∧
    (FINDRISC.calculate d).total_score ≤ 26 ∧
    ((FINDRISC.calculate d).total_score < 7 →
      (FINDRISC.calculate d).risk_level = "low" ∧
      (FINDRISC.calculate d).risk_percentage = 1) ∧
    (7 ≤ (FINDRISC.calculate d).total_score → (FINDRISC.calculate d).total_score < 12 →
      (FINDRISC.calculate d).risk_level = "low" ∧
      (FINDRISC.calculate d).risk_percentage = 4) ∧
    (12 ≤ (FINDRISC.calculate d).total_score → (FINDRISC.calculate d).total_score < 15 →
      (FINDRISC.calculate d).risk_level = "medium" ∧
      (FINDRISC.calculate d).risk_percentage = 17) ∧
    (15 ≤ (FINDRISC.calculate d).total_score → (FINDRISC.calculate d).total_score < 21 →
      (FINDRISC.calculate d).risk_level = "high" ∧
      (FINDRISC.calculate d).risk_percentage = 33) ∧
    (21 ≤ (FINDRISC.calculate d).total_score →
      (FINDRISC.calculate d).risk_level = "high" ∧
      (FINDRISC.calculate d).risk_percentage = 50) ∧
    (FINDRISC.calculate d).score =
      min 100 (ratTrunc (((FINDRISC.calculate d).total_score : ℚ) * 100 / 26)) := by
  have hage := FINDRISC.score_age_le d.age
  have hbmi := FINDRISC.score_bmi_le d.bmi
  have hwaist := FINDRISC.score_waist_le d.waist d.gender
  have hfam := FINDRISC.score_family_history_le d.family_diabetes
  refine ⟨FINDRISC.total_score_eq d, ?_, ?_, ?_, ?_, ?_, ?_, FINDRISC.score_eq d⟩
  · rw [FINDRISC.total_score_eq d]
    split_ifs <;> omega
  all_goals
    intros
    refine ⟨?_, ?_⟩ <;>
      [rw [FINDRISC.risk_level_eq d]; rw [FINDRISC.risk_percentage_eq d]] <;>
      · unfold FINDRISC.get_risk_level
        split_ifs <;> first | rfl | (exfalso; omega)

/-- Witness for C2: concrete inputs exercising each tier implication of
findrisc_calculate_spec. -/
theorem findrisc_calculate_spec_witness :
    ((FINDRISC.calculate ⟨30, 20, 70, "男", false, false, true, true, "none"⟩).risk_level = "low" ∧
     (FINDRISC.calculate ⟨30, 20, 70, "男", false, false, true, true, "none"⟩).risk_percentage = 1) ∧
    ((FINDRISC.calculate ⟨50, 26, 95, "男", false, false, true, true, "second_degree"⟩).risk_level = "low" ∧
     (FINDRISC.calculate ⟨50, 26, 95, "男", false, false, true, true, "second_degree"⟩).risk_percentage = 4) ∧
    ((FINDRISC.calculate ⟨60, 31, 95, "男", true, false, true, true, "second_degree"⟩).risk_level = "medium" ∧
     (FINDRISC.calculate ⟨60, 31, 95, "男", true, false, true, true, "second_degree"⟩).risk_percentage = 17) ∧
    ((FINDRISC.calculate ⟨70, 31, 105, "男", true, false, true, true, "second_degree"⟩).risk_level = "high" ∧
     (FINDRISC.calculate ⟨70, 31, 105, "男", true, false, true, true, "second_degree"⟩).risk_percentage = 33) ∧
    ((FINDRISC.calculate ⟨70, 31, 105, "男", true, true, false, false, "first_degree"⟩).risk_level = "high" ∧
     (FINDRISC.calculate ⟨70, 31, 105, "男", true, true, false, false, "first_degree"⟩).risk_percentage = 50) :=
  ⟨(findrisc_calculate_spec _).2.2.1 (by decide),
   (findrisc_calculate_spec _).2.2.2.1 (by decide) (by decide),
   (findrisc_calculate_spec _).2.2.2.2.1 (by decide) (by decide),
   (findrisc_calculate_spec _).2.2.2.2.2.1 (by decide) (by decide),
   (findrisc_calculate_spec _).2.2.2.2.2.2.1 (by decide)⟩

/-- Counterexample for C2 as stated: on an input with total score 1 the
code returns int(1 * 100 / 26) = 3, while min(100, round(1 * 100 / 26))
would be 4. -/
theorem findrisc_round_claim_counterexample :
    ¬ ((FINDRISC.calculate ⟨30, 20, 70, "男", false, false, true, false, "none"⟩).score =
        min 100 (round (((FINDRISC.calculate
          ⟨30, 20, 70, "男", false, false, true, false, "none"⟩).total_score : ℚ) * 100 / 26))) := by
  have h : (FINDRISC.calculate ⟨30, 20, 70, "男", false, false, true, false, "none"⟩).total_score = 1 := by
    decide
  rw [FINDRISC.score_eq, h]
  norm_num [ratTrunc, round_eq]

/-- Unfolding of the criteria count of MetabolicSyndromeCalculator.calculate. -/
theorem MetabolicSyndrome.criteria_met_eq (d : MetabolicRiskInput) :
    (calculate d).criteria_met =
      (if waist_met d then 1 else 0) + (if tg_met d then 1 else 0) +
      (if hdl_met d then 1 else 0) + (if bp_met d then 1 else 0) +
      (if glucose_met d then 1 else 0) := rfl

/-- Unfolding of the diagnosis flag of MetabolicSyndromeCalculator.calculate. -/
theorem MetabolicSyndrome.has_eq (d : MetabolicRiskInput) :
    (calculate d).has_metabolic_syndrome = decide (3 ≤ (calculate d).criteria_met) := rfl

/-- Unfolding of the score of MetabolicSyndromeCalculator.calculate. -/
theorem MetabolicSyndrome.met_score_eq (d : MetabolicRiskInput) :
    (calculate d).score = (calculate d).criteria_met * 20 := rfl

/-- Unfolding of the risk level of MetabolicSyndromeCalculator.calculate. -/
theorem MetabolicSyndrome.met_risk_level_eq (d : MetabolicRiskInput) :
    (calculate d).risk_level = get_risk_level (calculate d).criteria_met := rfl

/-- C3: the metabolic-syndrome diagnosis holds exactly when criteria_met
is at least 3, the score is always criteria_met * 20, the risk level is
low / medium / high for 0 / 1-2 / at least 3 criteria, and criteria_met
counts the five boolean criteria of the code (waist above the
sex-specific threshold; triglycerides at least 150 or on lipid
medication; HDL below the sex-specific threshold or on lipid medication;
systolic at least 130 or diastolic at least 85 or on BP medication;
fasting glucose at least 5.6 or on glucose medication). -/
theorem metabolic_calculate_spec (d : MetabolicRiskInput) :
    ((MetabolicSyndrome.calculate d).has_metabolic_syndrome = true ↔
      3 ≤ (MetabolicSyndrome.calculate d).criteria_met) ∧
    (MetabolicSyndrome.calculate d).score = (MetabolicSyndrome.calculate d).criteria_met * 20 ∧
    ((MetabolicSyndrome.calculate d).criteria_met = 0 →
      (MetabolicSyndrome.calculate d).risk_level = "low") ∧
    (1 ≤ (MetabolicSyndrome.calculate d).criteria_met →
      (MetabolicSyndrome.calculate d).criteria_met ≤ 2 →
      (MetabolicSyndrome.calculate d).risk_level = "medium") ∧
    (3 ≤ (MetabolicSyndrome.calculate d).criteria_met →
      (MetabolicSyndrome.calculate d).risk_level = "high") ∧
    (MetabolicSyndrome.calculate d).criteria_met =
      (if MetabolicSyndrome.waist_threshold d.gender ≤ d.waist then 1 else 0) +
      (if 150 ≤ d.triglycerides ∨ d.on_lipid_medication = true then 1 else 0) +
      (if d.hdl_cholesterol < MetabolicSyndrome.hdl_threshold d.gender ∨
          d.on_lipid_medication = true then 1 else 0) +
      (if (130 ≤ d.systolic_bp ∨ 85 ≤ d.diastolic_bp) ∨ d.on_bp_medication = true then 1 else 0) +
      (if (56 / 10 : ℚ) ≤ d.fasting_glucose ∨ d.on_glucose_medication = true then 1 else 0) := by
  refine ⟨by rw [MetabolicSyndrome.has_eq]; exact decide_eq_true_iff,
    MetabolicSyndrome.met_score_eq d, ?_, ?_, ?_, ?_⟩
  · intro h0
    rw [MetabolicSyndrome.met_risk_level_eq]
    unfold MetabolicSyndrome.get_risk_level
    split_ifs <;> first | rfl | (exfalso; omega)
  · intro h1 h2
    rw [MetabolicSyndrome.met_risk_level_eq]
    unfold MetabolicSyndrome.get_risk_level
    split_ifs <;> first | rfl | (exfalso; omega)
  · intro h3
    rw [MetabolicSyndrome.met_risk_level_eq]
    unfold MetabolicSyndrome.get_risk_level
    split_ifs <;> first | rfl | (exfalso; omega)
  · rw [MetabolicSyndrome.criteria_met_eq]
    simp only [MetabolicSyndrome.waist_met, MetabolicSyndrome.tg_met,
      MetabolicSyndrome.hdl_met, MetabolicSyndrome.bp_met, MetabolicSyndrome.glucose_met,
      Bool.or_eq_true, decide_eq_true_eq]

/-- Witness for C3: a concrete input meeting 4 of the 5 criteria, hence
diagnosed and rated high. -/
theorem metabolic_calculate_spec_witness :
    ((MetabolicSyndrome.calculate ⟨95, "男", 160, 35, 135, 80, 6, false, false, false⟩).has_metabolic_syndrome = true ↔
      3 ≤ (MetabolicSyndrome.calculate ⟨95, "男", 160, 35, 135, 80, 6, false, false, false⟩).criteria_met) ∧
    (MetabolicSyndrome.calculate ⟨95, "男", 160, 35, 135, 80, 6, false, false, false⟩).risk_level = "high" := by
  have h : (MetabolicSyndrome.calculate
      ⟨95, "男", 160, 35, 135, 80, 6, false, false, false⟩).criteria_met = 5 := by
    rw [MetabolicSyndrome.criteria_met_eq]
    simp [MetabolicSyndrome.waist_met, MetabolicSyndrome.tg_met, MetabolicSyndrome.hdl_met,
      MetabolicSyndrome.bp_met, MetabolicSyndrome.glucose_met, MetabolicSyndrome.waist_threshold,
      MetabolicSyndrome.hdl_threshold]
    norm_num
  exact ⟨(metabolic_calculate_spec _).1,
    (metabolic_calculate_spec _).2.2.2.2.1 (by rw [h]; omega)⟩

/-- C4 (amended): the moving average preserves the input length for every
input; the per-index description of the original claim — prefix average
before index window - 1, trailing window average from it on — holds for
inputs with at least window elements, while shorter inputs are returned
unchanged (which the original claim did not allow for); and for
[1..8] the element at index 7 is the average of the elements at indices
1..7. -/
theorem moving_average_spec :
    (∀ data : List ℚ, (TrendAnalyzer.calculate_moving_average data 7).length = data.length) ∧
    (∀ data : List ℚ, data.length < 7 → TrendAnalyzer.calculate_moving_average data 7 = data) ∧
    (∀ data : List ℚ, 7 ≤ data.length → ∀ i, i < data.length →
      (i < 6 → (TrendAnalyzer.calculate_moving_average data 7).getD i 0 =
        (data.take (i + 1)).sum / (i + 1)) ∧
      (6 ≤ i → (TrendAnalyzer.calculate_moving_average data 7).getD i 0 =
        ((data.drop (i - 6)).take 7).sum / 7)) ∧
    (TrendAnalyzer.calculate_moving_average [1, 2, 3, 4, 5, 6, 7, 8] 7).getD 7 0 =
      (([1, 2, 3, 4, 5, 6, 7, 8] : List ℚ).drop 1).sum / 7 := by
  have key : ∀ data : List ℚ, 7 ≤ data.length → ∀ i, i < data.length →
      (TrendAnalyzer.calculate_moving_average data 7).getD i 0 =
        if i < 6 then (data.take (i + 1)).sum / (i + 1)
        else ((data.drop (i + 1 - 7)).take 7).sum / 7 := by
    intro data h7 i hi
    unfold TrendAnalyzer.calculate_moving_average
    rw [if_neg (by omega)]
    rw [List.getD_eq_getElem?_getD, List.getElem?_map, List.getElem?_range hi]
    rfl
  refine ⟨?_, ?_, ?_, ?_⟩
  · intro data
    unfold TrendAnalyzer.calculate_moving_average
    split <;> simp
  · intro data h
    unfold TrendAnalyzer.calculate_moving_average
    rw [if_pos h]
  · intro data h7 i hi
    constructor
    · intro hlt
      rw [key data h7 i hi, if_pos hlt]
    · intro hge
      rw [key data h7 i hi, if_neg (by omega)]
      have hidx : i + 1 - 7 = i - 6 := by omega
      rw [hidx]
  · have h := key [1, 2, 3, 4, 5, 6, 7, 8] (by decide) 7 (by decide)
    rw [h, if_neg (by omega)]
    norm_num

/-- Witness for C4: moving_average_spec applied to a short input, to both
per-index branches of an 8-element input, and its length clause. -/
theorem moving_average_spec_witness :
    (TrendAnalyzer.calculate_moving_average [1, 3] 7).length = 2 ∧
    TrendAnalyzer.calculate_moving_average [1, 3] 7 = [1, 3] ∧
    (TrendAnalyzer.calculate_moving_average [1, 2, 3, 4, 5, 6, 7, 8] 7).getD 0 0 =
      (([1, 2, 3, 4, 5, 6, 7, 8] : List ℚ).take 1).sum / 1 ∧
    (TrendAnalyzer.calculate_moving_average [1, 2, 3, 4, 5, 6, 7, 8] 7).getD 7 0 =
      ((([1, 2, 3, 4, 5, 6, 7, 8] : List ℚ).drop 1).take 7).sum / 7 := by
  refine ⟨?_, moving_average_spec.2.1 [1, 3] (by decide), ?_, ?_⟩
  · have h := moving_average_spec.1 [1, 3]
    simpa using h
  · have h := (moving_average_spec.2.2.1 [1, 2, 3, 4, 5, 6, 7, 8] (by decide) 0 (by decide)).1
      (by decide)
    simpa using h
  · have h := (moving_average_spec.2.2.1 [1, 2, 3, 4, 5, 6, 7, 8] (by decide) 7 (by decide)).2
      (by decide)
    simpa using h

/-- Counterexample for C4 as stated: a 2-element input is shorter than the
default window 7, so the code returns it unchanged, and the element at
index 1 is 3 rather than the prefix average (1 + 3) / 2 = 2 that the
claim prescribes for every index below window - 1. -/
theorem moving_average_short_input_counterexample :
    ¬ ((TrendAnalyzer.calculate_moving_average [1, 3] 7).getD 1 0 =
        (([1, 3] : List ℚ).take 2).sum / 2) := by
  norm_num [TrendAnalyzer.calculate_moving_average]

/-- Insertion preserves length. -/
theorem AnomalyDetector.length_insertAsc (x : ℚ) (l : List ℚ) :
    (insertAsc x l).length = l.length + 1 := by
  induction l with
  | nil => rfl
  | cons y ys ih =>
    unfold insertAsc
    split <;> simp [ih]

/-- Sorting preserves length. -/
theorem AnomalyDetector.length_pySorted (l : List ℚ) :
    (pySorted l).length = l.length := by
  induction l with
  | nil => rfl
  | cons x xs ih => simp [pySorted, length_insertAsc, ih]

/-- C5: with at least 4 points, detect_iqr takes the quartiles at the
integer-division indices n / 4 and 3 n / 4 of the sorted data (not
interpolated), sets the bounds q1 - 1.5 iqr and q3 + 1.5 iqr, and flags
exactly the values strictly outside those bounds, tagging each high or
low by the bound it exceeds; on [10, 11, 9, 10, 12, 11, 100] it flags the
value 100 (index 6) as high with bounds 7 and 15. -/
theorem detect_iqr_spec :
    (∀ (data : List ℚ) (q1 q3 lb ub : ℚ), 4 ≤ data.length →
      q1 = (AnomalyDetector.pySorted data).getD (data.length / 4) 0 →
      q3 = (AnomalyDetector.pySorted data).getD (3 * data.length / 4) 0 →
      lb = q1 - (3 / 2) * (q3 - q1) →
      ub = q3 + (3 / 2) * (q3 - q1) →
      (∀ a ∈ AnomalyDetector.detect_iqr data (3 / 2),
        a.index < data.length ∧ data.getD a.index 0 = a.value ∧
        (a.value < lb ∨ ub < a.value) ∧
        a.type = if ub < a.value then "high" else "low") ∧
      (∀ i, i < data.length → (data.getD i 0 < lb ∨ ub < data.getD i 0) →
        ∃ a ∈ AnomalyDetector.detect_iqr data (3 / 2),
          a.index = i ∧ a.value = data.getD i 0)) ∧
    AnomalyDetector.detect_iqr [10, 11, 9, 10, 12, 11, 100] (3 / 2) =
      [{ index := 6, value := 100, lower_bound := 7, upper_bound := 15, type := "high" }] := by
  constructor
  · intro data q1 q3 lb ub h4 hq1 hq3 hlb hub
    rw [← AnomalyDetector.length_pySorted data] at hq1 hq3
    have hrw : AnomalyDetector.detect_iqr data (3 / 2) =
        data.enum.filterMap (fun p =>
          if p.2 < lb ∨ ub < p.2 then
            some { index := p.1, value := p.2, lower_bound := qRound1 lb,
                   upper_bound := qRound1 ub,
                   type := if ub < p.2 then "high" else "low" }
          else none) := by
      subst hq1 hq3 hlb hub
      unfold AnomalyDetector.detect_iqr
      rw [if_neg (by omega)]
    constructor
    · intro a ha
      rw [hrw, List.mem_filterMap] at ha
      obtain ⟨⟨i, v⟩, hp, heq⟩ := ha
      have hgi : data[i]? = some v := List.mk_mem_enum_iff_getElem?.mp hp
      have hilen : i < data.length := by
        rcases List.getElem?_eq_some.mp hgi with ⟨h, _⟩
        exact h
      split at heq
      · injection heq with heq
        subst heq
        refine ⟨hilen, ?_, by assumption, rfl⟩
        simp [List.getD_eq_getElem?_getD, hgi]
      · exact absurd heq (by simp)
    · intro i hi hcond
      refine ⟨{ index := i, value := data.getD i 0, lower_bound := qRound1 lb,
                upper_bound := qRound1 ub,
                type := if ub < data.getD i 0 then "high" else "low" }, ?_, rfl, rfl⟩
      rw [hrw]
      refine List.mem_filterMap.mpr ⟨(i, data.getD i 0), ?_, ?_⟩
      · refine List.mk_mem_enum_iff_getElem?.mpr ?_
        rw [List.getElem?_eq_getElem hi, List.getD_eq_getElem data 0 hi]
      · rw [if_pos hcond]
  · simp [AnomalyDetector.detect_iqr, AnomalyDetector.pySorted, AnomalyDetector.insertAsc,
      qRound1, List.enum, List.enumFrom, List.filterMap, round_eq]
    norm_num

/-- Witness for C5: detect_iqr_spec applied to the concrete list
[10, 11, 9, 10, 12, 11, 100], whose bounds are 7 and 15, showing the
flagged record carries the value 100 from index 6 and the value 100 at
index 6 is flagged. -/
theorem detect_iqr_spec_witness :
    (∀ a ∈ AnomalyDetector.detect_iqr [10, 11, 9, 10, 12, 11, 100] (3 / 2),
      a.index < 7 ∧ ([10, 11, 9, 10, 12, 11, 100] : List ℚ).getD a.index 0 = a.value ∧
      (a.value < 7 ∨ 15 < a.value) ∧ a.type = if 15 < a.value then "high" else "low") ∧
    (∃ a ∈ AnomalyDetector.detect_iqr [10, 11, 9, 10, 12, 11, 100] (3 / 2),
      a.index = 6 ∧ a.value = ([10, 11, 9, 10, 12, 11, 100] : List ℚ).getD 6 0) := by
  have h := detect_iqr_spec.1 [10, 11, 9, 10, 12, 11, 100] 10 12 7 15 (by decide)
    (by norm_num [AnomalyDetector.pySorted, AnomalyDetector.insertAsc])
    (by norm_num [AnomalyDetector.pySorted, AnomalyDetector.insertAsc])
    (by norm_num) (by norm_num)
  refine ⟨fun a ha => ?_, h.2 6 (by decide) (by norm_num)⟩
  have := h.1 a ha
  simpa using this

/-- The z-score body is empty as soon as no element has an absolute
z-score above the threshold. -/
theorem AnomalyDetector.zscore_body_eq_nil (data : List ℝ) (t : ℝ)
    (h : ∀ v ∈ data, ¬ (t < |(v - zmean data) / zstd data|)) :
    zscore_body data t = [] := by
  unfold zscore_body
  refine List.filterMap_eq_nil.mpr ?_
  rintro ⟨i, v⟩ hp
  have hgi : data[i]? = some v := List.mk_mem_enum_iff_getElem?.mp hp
  have hv : v ∈ data := by
    rcases List.getElem?_eq_some.mp hgi with ⟨hlt, rfl⟩
    exact List.getElem_mem hlt
  simp only
  rw [if_neg (h v hv)]

/-- On a one-element list the z-score is 0. -/
theorem AnomalyDetector.zmean_singleton (x : ℝ) : zmean [x] = x := by
  simp [zmean]

/-- Variance of a one-element list is 0. -/
theorem AnomalyDetector.zvariance_singleton (x : ℝ) : zvariance [x] = 0 := by
  simp [zvariance, zmean_singleton]

/-- Mean of a two-element list. -/
theorem AnomalyDetector.zmean_pair (x y : ℝ) : zmean [x, y] = (x + y) / 2 := by
  simp [zmean]

/-- Variance of a two-element list. -/
theorem AnomalyDetector.zvariance_pair (x y : ℝ) :
    zvariance [x, y] = ((x - y) / 2) ^ 2 := by
  simp [zvariance, zmean_pair]
  ring

/-- With the default threshold 2.5, the unguarded z-score body flags
nothing on lists of fewer than 3 points: on 0 or 1 points every z-score
is 0, and on 2 points every z-score is 0 or has absolute value 1. -/
theorem AnomalyDetector.zscore_body_short (data : List ℝ) (h : data.length < 3) :
    zscore_body data (5 / 2) = [] := by
  match data with
  | [] => rfl
  | [x] =>
    refine zscore_body_eq_nil _ _ ?_
    intro v hv
    rcases List.mem_singleton.mp hv with rfl
    rw [zmean_singleton, sub_self, zero_div, abs_zero]
    norm_num
  | [x, y] =>
    refine zscore_body_eq_nil _ _ ?_
    have hstd : zstd [x, y] = if 0 < ((x - y) / 2) ^ 2 then |(x - y) / 2| else 1 := by
      rw [zstd, zvariance_pair]
      split_ifs with hpos
      · exact Real.sqrt_sq_eq_abs _
      · rfl
    intro v hv
    rw [zmean_pair, hstd]
    have hxm : x - (x + y) / 2 = (x - y) / 2 := by ring
    have hym : y - (x + y) / 2 = -((x - y) / 2) := by ring
    by_cases hd : (x - y) / 2 = 0
    · have hxy : x = y := by
        have : x - y = 0 := by linarith [hd]
        linarith
      rw [if_neg (by rw [hd]; norm_num)]
      rcases List.mem_cons.mp hv with rfl | hv
      · rw [hxm, hd, zero_div, abs_zero]; norm_num
      · rcases List.mem_singleton.mp hv with rfl
        rw [hym, hd, neg_zero, zero_div, abs_zero]; norm_num
    · have habs : 0 < |(x - y) / 2| := abs_pos.mpr hd
      have hpos : 0 < ((x - y) / 2) ^ 2 := by
        calc (0 : ℝ) < |(x - y) / 2| ^ 2 := pow_pos habs 2
        _ = ((x - y) / 2) ^ 2 := sq_abs _
      rw [if_pos hpos]
      rcases List.mem_cons.mp hv with rfl | hv
      · rw [hxm, abs_div, abs_abs, div_self (ne_of_gt habs)]
        norm_num
      · rcases List.mem_singleton.mp hv with rfl
        rw [hym, abs_div, abs_neg, abs_abs, div_self (ne_of_gt habs)]
        norm_num
  | a :: b :: c :: tl => exact absurd h (by simp)

/-- C6: analyze_trend returns the explicit unknown result below 3 points,
detect_iqr returns no anomalies below 4 points, detect_zscore returns no
anomalies below 3 points — and its guard is inert there, since even the
unguarded z-score rule at the default threshold 2.5 can flag nothing on
fewer than 3 points — while the medical-threshold detector classifies a
single reading, with no minimum sample count at all. -/
theorem insufficient_data_spec :
    (∀ data : List ℚ, data.length < 3 →
      TrendAnalyzer.analyze_trend data =
        { direction := "unknown", strength := "unknown", change_rate := 0,
          prediction := [], moving_avg := data }) ∧
    (∀ data : List ℚ, data.length < 4 → AnomalyDetector.detect_iqr data (3 / 2) = []) ∧
    (∀ data : List ℝ, data.length < 3 → AnomalyDetector.detect_zscore data (5 / 2) = []) ∧
    (∀ data : List ℝ, data.length < 3 → AnomalyDetector.zscore_body data (5 / 2) = []) ∧
    (∀ v : ℚ, v ≤ 40 → AnomalyDetector.detect_medical_anomaly v "heart_rate" =
      some { value := v, metric_type := "heart_rate", unit := "bpm",
             severity := "critical", type := "low" }) := by
  refine ⟨?_, ?_, ?_, fun data h => AnomalyDetector.zscore_body_short data h, ?_⟩
  · intro data h
    unfold TrendAnalyzer.analyze_trend
    rw [if_pos h]
  · intro data h
    unfold AnomalyDetector.detect_iqr
    rw [if_pos h]
  · intro data h
    unfold AnomalyDetector.detect_zscore
    rw [if_pos h]
  · intro v hv
    simp [AnomalyDetector.detect_medical_anomaly, AnomalyDetector.MEDICAL_THRESHOLDS, hv]

/-- Witness for C6: insufficient_data_spec applied to concrete short
inputs and to one concrete critical-low heart-rate reading. -/
theorem insufficient_data_spec_witness :
    TrendAnalyzer.analyze_trend [1, 2] =
      { direction := "unknown", strength := "unknown", change_rate := 0,
        prediction := [], moving_avg := [1, 2] } ∧
    AnomalyDetector.detect_iqr [1, 2, 3] (3 / 2) = [] ∧
    AnomalyDetector.detect_zscore [0, 1] (5 / 2) = [] ∧
    AnomalyDetector.zscore_body [0, 1] (5 / 2) = [] ∧
    AnomalyDetector.detect_medical_anomaly 35 "heart_rate" =
      some { value := 35, metric_type := "heart_rate", unit := "bpm",
             severity := "critical", type := "low" } :=
  ⟨insufficient_data_spec.1 [1, 2] (by decide),
   insufficient_data_spec.2.1 [1, 2, 3] (by decide),
   insufficient_data_spec.2.2.1 [0, 1] (by decide),
   insufficient_data_spec.2.2.2.1 [0, 1] (by decide),
   insufficient_data_spec.2.2.2.2 35 (by norm_num)⟩

/-- C9: the spo2 row of the medical threshold table sets both high and
critical_high to 100, and the comparisons are inclusive, so every spo2
reading of at least 100 — including a perfect reading of exactly 100 —
is classified as a critical high anomaly, never as normal. -/
theorem spo2_spec (v : ℚ) (h : 100 ≤ v) :
    AnomalyDetector.MEDICAL_THRESHOLDS "spo2" =
      some { critical_low := some 90, low := some 94, high := some 100,
             critical_high := some 100, unit := "%" } ∧
    AnomalyDetector.detect_medical_anomaly v "spo2" =
      some { value := v, metric_type := "spo2", unit := "%",
             severity := "critical", type := "high" } := by
  refine ⟨rfl, ?_⟩
  have h1 : ¬ v ≤ 90 := by linarith
  have h2 : ¬ v ≤ 94 := by linarith
  simp [AnomalyDetector.detect_medical_anomaly, AnomalyDetector.MEDICAL_THRESHOLDS, h1, h2, h]

/-- Witness for C9: spo2_spec applied to the reading 100 itself. -/
theorem spo2_spec_witness :
    AnomalyDetector.detect_medical_anomaly 100 "spo2" =
      some { value := 100, metric_type := "spo2", unit := "%",
             severity := "critical", type := "high" } :=
  (spo2_spec 100 (by norm_num)).2

/-- Every row of the band table has a positive normal band enclosing the
optimal band. -/
theorem HealthScoreCalculator.score_ranges_sound (mt : String) (o n : ℚ × ℚ)
    (h : score_ranges mt = some (o, n)) :
    0 < n.1 ∧ 0 < n.2 ∧ n.1 ≤ o.1 ∧ o.1 ≤ o.2 ∧ o.2 ≤ n.2 := by
  unfold score_ranges at h
  split_ifs at h <;>
    first
      | (rw [Option.some.injEq, Prod.mk.injEq] at h
         obtain ⟨h1, h2⟩ := h
         subst h1
         subst h2
         norm_num)
      | simp at h

/-- Unfolding of calculate_metric_score on a metric with a band table row. -/
theorem HealthScoreCalculator.calculate_metric_score_eq (mt : String) (o n : ℚ × ℚ)
    (value : ℚ) (h : score_ranges mt = some (o, n)) :
    calculate_metric_score value mt =
      if o.1 ≤ value ∧ value ≤ o.2 then 95
      else if n.1 ≤ value ∧ value ≤ n.2 then
        70 + (if value < o.1 then (value - n.1) / (o.1 - n.1)
              else (n.2 - value) / (n.2 - o.2)) * 20
      else
        (if value < n.1 then max 0 (value / n.1)
         else max 0 (1 - (value - n.2) / n.2)) * 70 := by
  unfold calculate_metric_score
  rw [h]

/-- C7: for a metric with a band table row, a value inside the optimal
band scores 95; inside the normal band but below (resp. above) the
optimal band it scores 70 plus 20 times the proportional position
between the normal and optimal edges; below the normal band the score is
exactly max(0, value / normal_low) * 70 and above it exactly
max(0, 1 - (value - normal_high) / normal_high) * 70 — the linear scale
in the distance past the normal edge, clamped at 0 — and in both cases
the score lies in [0, 70); unknown metric types score 70; in particular
heart rate 75 scores 95, and 45 scores in [0, 70), strictly below the
score of 55. -/
theorem calculate_metric_score_spec :
    (∀ metric_type : String, HealthScoreCalculator.score_ranges metric_type = none →
      ∀ value : ℚ, HealthScoreCalculator.calculate_metric_score value metric_type = 70) ∧
    (∀ (metric_type : String) (o n : ℚ × ℚ) (value : ℚ),
      HealthScoreCalculator.score_ranges metric_type = some (o, n) →
      (o.1 ≤ value → value ≤ o.2 →
        HealthScoreCalculator.calculate_metric_score value metric_type = 95) ∧
      (n.1 ≤ value → value ≤ n.2 → value < o.1 →
        HealthScoreCalculator.calculate_metric_score value metric_type =
          70 + (value - n.1) / (o.1 - n.1) * 20) ∧
      (n.1 ≤ value → value ≤ n.2 → o.2 < value →
        HealthScoreCalculator.calculate_metric_score value metric_type =
          70 + (n.2 - value) / (n.2 - o.2) * 20) ∧
      (value < n.1 →
        HealthScoreCalculator.calculate_metric_score value metric_type =
          max 0 (value / n.1) * 70 ∧
        0 ≤ HealthScoreCalculator.calculate_metric_score value metric_type ∧
        HealthScoreCalculator.calculate_metric_score value metric_type < 70) ∧
      (n.2 < value →
        HealthScoreCalculator.calculate_metric_score value metric_type =
          max 0 (1 - (value - n.2) / n.2) * 70 ∧
        0 ≤ HealthScoreCalculator.calculate_metric_score value metric_type ∧
        HealthScoreCalculator.calculate_metric_score value metric_type < 70)) ∧
    HealthScoreCalculator.calculate_metric_score 75 "heart_rate" = 95 ∧
    0 ≤ HealthScoreCalculator.calculate_metric_score 45 "heart_rate" ∧
    HealthScoreCalculator.calculate_metric_score 45 "heart_rate" < 70 ∧
    HealthScoreCalculator.calculate_metric_score 45 "heart_rate" <
      HealthScoreCalculator.calculate_metric_score 55 "heart_rate" := by
  have hhr : HealthScoreCalculator.score_ranges "heart_rate" = some ((60, 80), (50, 100)) := rfl
  have h45 : HealthScoreCalculator.calculate_metric_score 45 "heart_rate" = 63 := by
    rw [HealthScoreCalculator.calculate_metric_score_eq _ _ _ _ hhr]
    norm_num
  have h55 : HealthScoreCalculator.calculate_metric_score 55 "heart_rate" = 80 := by
    rw [HealthScoreCalculator.calculate_metric_score_eq _ _ _ _ hhr]
    norm_num
  refine ⟨?_, ?_,
    by rw [HealthScoreCalculator.calculate_metric_score_eq _ _ _ _ hhr]; norm_num,
    by rw [h45]; norm_num, by rw [h45]; norm_num, by rw [h45, h55]; norm_num⟩
  · intro mt h value
    unfold HealthScoreCalculator.calculate_metric_score
    rw [h]
  · intro mt o n value h
    obtain ⟨hn1, hn2, hno, hoo, hon⟩ := HealthScoreCalculator.score_ranges_sound mt o n h
    rw [HealthScoreCalculator.calculate_metric_score_eq mt o n value h]
    refine ⟨?_, ?_, ?_, ?_, ?_⟩
    · intro h1 h2
      rw [if_pos ⟨h1, h2⟩]
    · intro h1 h2 h3
      rw [if_neg (by rintro ⟨c1, _⟩; exact absurd h3 (not_lt.mpr c1)),
        if_pos ⟨h1, h2⟩, if_pos h3]
    · intro h1 h2 h3
      rw [if_neg (by rintro ⟨_, c2⟩; exact absurd h3 (not_lt.mpr c2)),
        if_pos ⟨h1, h2⟩, if_neg (by intro c; exact absurd h3 (not_lt.mpr (le_of_lt (lt_of_lt_of_le c hoo))))]
    · intro hout
      rw [if_neg (by rintro ⟨c1, _⟩; exact absurd hout (not_lt.mpr (le_trans hno c1))),
        if_neg (by rintro ⟨c1, _⟩; exact absurd hout (not_lt.mpr c1)), if_pos hout]
      have hfrac1 : max (0 : ℚ) (value / n.1) < 1 :=
        max_lt (by norm_num) ((div_lt_one hn1).mpr hout)
      refine ⟨rfl, ?_, ?_⟩
      · exact mul_nonneg (le_max_left 0 _) (by norm_num)
      · nlinarith [hfrac1]
    · intro hout
      rw [if_neg (by rintro ⟨_, c2⟩; exact absurd hout (not_lt.mpr (le_trans c2 hon))),
        if_neg (by rintro ⟨_, c2⟩; exact absurd hout (not_lt.mpr c2)),
        if_neg (by intro c; exact absurd hout (not_lt.mpr (le_of_lt (lt_of_lt_of_le c (le_trans hno (le_trans hoo hon))))))]
      have hpos : 0 < (value - n.2) / n.2 := div_pos (by linarith) hn2
      have hfrac2 : max (0 : ℚ) (1 - (value - n.2) / n.2) < 1 :=
        max_lt (by norm_num) (by linarith)
      refine ⟨rfl, ?_, ?_⟩
      · exact mul_nonneg (le_max_left 0 _) (by norm_num)
      · nlinarith [hfrac2]

/-- Witness for C7: calculate_metric_score_spec applied to a metric
without a table row and to all five branches of the heart-rate row,
including the explicit clamped linear formulas below and above the
normal band. -/
theorem calculate_metric_score_spec_witness :
    HealthScoreCalculator.calculate_metric_score 42 "unknown_metric" = 70 ∧
    HealthScoreCalculator.calculate_metric_score 75 "heart_rate" = 95 ∧
    HealthScoreCalculator.calculate_metric_score 55 "heart_rate" =
      70 + ((55 : ℚ) - 50) / (60 - 50) * 20 ∧
    HealthScoreCalculator.calculate_metric_score 90 "heart_rate" =
      70 + ((100 : ℚ) - 90) / (100 - 80) * 20 ∧
    (HealthScoreCalculator.calculate_metric_score 45 "heart_rate" =
        max 0 ((45 : ℚ) / 50) * 70 ∧
      0 ≤ HealthScoreCalculator.calculate_metric_score 45 "heart_rate" ∧
      HealthScoreCalculator.calculate_metric_score 45 "heart_rate" < 70) ∧
    (HealthScoreCalculator.calculate_metric_score 120 "heart_rate" =
        max 0 (1 - ((120 : ℚ) - 100) / 100) * 70 ∧
      0 ≤ HealthScoreCalculator.calculate_metric_score 120 "heart_rate" ∧
      HealthScoreCalculator.calculate_metric_score 120 "heart_rate" < 70) :=
  ⟨calculate_metric_score_spec.1 "unknown_metric" rfl 42,
   (calculate_metric_score_spec.2.1 "heart_rate" (60, 80) (50, 100) 75 rfl).1
     (by norm_num) (by norm_num),
   (calculate_metric_score_spec.2.1 "heart_rate" (60, 80) (50, 100) 55 rfl).2.1
     (by norm_num) (by norm_num) (by norm_num),
   (calculate_metric_score_spec.2.1 "heart_rate" (60, 80) (50, 100) 90 rfl).2.2.1
     (by norm_num) (by norm_num) (by norm_num),
   (calculate_metric_score_spec.2.1 "heart_rate" (60, 80) (50, 100) 45 rfl).2.2.2.1
     (by norm_num),
   (calculate_metric_score_spec.2.1 "heart_rate" (60, 80) (50, 100) 120 rfl).2.2.2.2
     (by norm_num)⟩

/-- Every entry a category_entry block produces carries the name and
weight of the block. -/
theorem HealthScoreCalculator.category_entry_fields (name : String) (w : ℚ)
    (o : Option ℚ) (c : String × ℚ × ℚ) (h : c ∈ category_entry name w o) :
    c.1 = name ∧ c.2.2 = w := by
  cases o with
  | none => simp [category_entry] at h
  | some s =>
    simp only [category_entry, List.mem_singleton] at h
    subst h
    exact ⟨rfl, rfl⟩

/-- Every category entry weight is positive. -/
theorem HealthScoreCalculator.category_list_weight_pos (m : HealthMetrics)
    (c : String × ℚ × ℚ) (h : c ∈ category_list m) : 0 < c.2.2 := by
  unfold category_list at h
  simp only [List.mem_append] at h
  rcases h with ((((((h | h) | h) | h) | h) | h) | h) <;>
    · rw [(HealthScoreCalculator.category_entry_fields _ _ _ _ h).2]
      simp [WEIGHTS]

/-- A nonempty category list has positive total weight. -/
theorem HealthScoreCalculator.total_weight_pos (m : HealthMetrics)
    (h : category_list m ≠ []) :
    0 < ((category_list m).map fun c => c.2.2).sum := by
  apply List.sum_pos
  · intro x hx
    rcases List.mem_map.mp hx with ⟨c, hc, rfl⟩
    exact HealthScoreCalculator.category_list_weight_pos m c hc
  · simpa using h

/-- Unfolding of the overall score of calculate_overall_score. -/
theorem HealthScoreCalculator.overall_score_eq (m : HealthMetrics) :
    (calculate_overall_score m).overall_score =
      if 0 < ((category_list m).map fun c => c.2.2).sum then
        ratTrunc (((category_list m).map fun c => c.2.1 * c.2.2).sum /
          ((category_list m).map fun c => c.2.2).sum)
      else 70 := rfl

/-- Unfolding of the category scores of calculate_overall_score. -/
theorem HealthScoreCalculator.category_scores_eq (m : HealthMetrics) :
    (calculate_overall_score m).category_scores =
      (category_list m).map fun c => (c.1, round c.2.1) := rfl

/-- C8: the overall score is the int conversion of the weighted sum of
the raw category scores divided by the total weight of exactly the
categories present in the input (absent categories contribute to neither
sum), it defaults to 70 when no category is present, and with only
heart_rate 70 supplied — a single present category — it equals the
heart-rate category score 95 exactly. -/
theorem overall_score_spec :
    (∀ m : HealthMetrics,
      (HealthScoreCalculator.category_list m = [] →
        (HealthScoreCalculator.calculate_overall_score m).overall_score = 70) ∧
      (HealthScoreCalculator.category_list m ≠ [] →
        (HealthScoreCalculator.calculate_overall_score m).overall_score =
          ratTrunc
            (((HealthScoreCalculator.category_list m).map fun c => c.2.1 * c.2.2).sum /
              ((HealthScoreCalculator.category_list m).map fun c => c.2.2).sum))) ∧
    HealthScoreCalculator.category_list {} = [] ∧
    (HealthScoreCalculator.calculate_overall_score {}).overall_score = 70 ∧
    (HealthScoreCalculator.calculate_overall_score
      { heart_rate := some 70 }).category_scores = [("heart_rate", 95)] ∧
    (HealthScoreCalculator.calculate_overall_score
      { heart_rate := some 70 }).overall_score = 95 := by
  have hcms : HealthScoreCalculator.calculate_metric_score 70 "heart_rate" = 95 := by
    rw [HealthScoreCalculator.calculate_metric_score_eq "heart_rate" (60, 80) (50, 100) 70 rfl]
    norm_num
  have hsingle : HealthScoreCalculator.category_list { heart_rate := some 70 } =
      [("heart_rate", HealthScoreCalculator.calculate_metric_score 70 "heart_rate",
        HealthScoreCalculator.WEIGHTS "heart_rate")] := rfl
  refine ⟨?_, rfl, ?_, ?_, ?_⟩
  · intro m
    constructor
    · intro h
      rw [HealthScoreCalculator.overall_score_eq, h]
      norm_num
    · intro h
      rw [HealthScoreCalculator.overall_score_eq,
        if_pos (HealthScoreCalculator.total_weight_pos m h)]
  · rw [HealthScoreCalculator.overall_score_eq]
    norm_num [HealthScoreCalculator.category_list, HealthScoreCalculator.category_entry]
  · rw [HealthScoreCalculator.category_scores_eq, hsingle, hcms]
    norm_num [round_eq]
  · rw [HealthScoreCalculator.overall_score_eq, hsingle, hcms]
    have hw : HealthScoreCalculator.WEIGHTS "heart_rate" = 15 / 100 := rfl
    rw [hw]
    norm_num [ratTrunc]

/-- Witness for C8: overall_score_spec applied to the empty input (no
categories, default 70) and to the singleton heart-rate input (one
category, renormalized weighted average). -/
theorem overall_score_spec_witness :
    (HealthScoreCalculator.calculate_overall_score {}).overall_score = 70 ∧
    (HealthScoreCalculator.calculate_overall_score
      { heart_rate := some 70 }).overall_score =
      ratTrunc
        (((HealthScoreCalculator.category_list { heart_rate := some 70 }).map
            fun c => c.2.1 * c.2.2).sum /
          ((HealthScoreCalculator.category_list { heart_rate := some 70 }).map
            fun c => c.2.2).sum) :=
  ⟨(overall_score_spec.1 {}).1 rfl,
   (overall_score_spec.1 { heart_rate := some 70 }).2
     (by simp [HealthScoreCalculator.category_list, HealthScoreCalculator.category_entry])⟩

/-- With one of the two blood-pressure readings absent, the
blood-pressure entry of the category list is empty. -/
theorem HealthScoreCalculator.bp_option_none (m : HealthMetrics)
    (h : m.blood_pressure_sys = none ∨ m.blood_pressure_dia = none) :
    (match m.blood_pressure_sys, m.blood_pressure_dia with
     | some s, some d =>
       some ((calculate_metric_score s "blood_pressure_sys" +
              calculate_metric_score d "blood_pressure_dia") / 2)
     | _, _ => none) = (none : Option ℚ) := by
  rcases h with h | h
  · rw [h]
  · rw [h]
    cases m.blood_pressure_sys <;> rfl

/-- C10: the blood-pressure category contributes to the composite only
when both sub-metrics are present; with exactly one (or neither)
present, the result is identical to the result with both absent, and no
blood_pressure entry appears among the category scores. -/
theorem bp_requires_both (m : HealthMetrics)
    (h : m.blood_pressure_sys = none ∨ m.blood_pressure_dia = none) :
    HealthScoreCalculator.calculate_overall_score m =
      HealthScoreCalculator.calculate_overall_score
        { m with blood_pressure_sys := none, blood_pressure_dia := none } ∧
    ∀ s : ℤ, ("blood_pressure", s) ∉
      (HealthScoreCalculator.calculate_overall_score m).category_scores := by
  have hbp := HealthScoreCalculator.bp_option_none m h
  have hcl : HealthScoreCalculator.category_list m =
      HealthScoreCalculator.category_list
        { m with blood_pressure_sys := none, blood_pressure_dia := none } := by
    unfold HealthScoreCalculator.category_list
    rw [hbp]
  constructor
  · unfold HealthScoreCalculator.calculate_overall_score
    rw [hcl]
  · intro s hs
    rw [HealthScoreCalculator.category_scores_eq] at hs
    obtain ⟨c, hc, heq⟩ := List.mem_map.mp hs
    have hname : c.1 = "blood_pressure" := (Prod.ext_iff.mp heq).1
    unfold HealthScoreCalculator.category_list at hc
    rw [hbp] at hc
    simp only [List.mem_append] at hc
    rcases hc with ((((((hc | hc) | hc) | hc) | hc) | hc) | hc) <;>
      first
        | (rw [(HealthScoreCalculator.category_entry_fields _ _ _ _ hc).1] at hname
           exact absurd hname (by decide))
        | simp [HealthScoreCalculator.category_entry] at hc

/-- Witness for C10: bp_requires_both applied to an input carrying a
systolic reading but no diastolic one. -/
theorem bp_requires_both_witness :
    HealthScoreCalculator.calculate_overall_score
        { heart_rate := some 70, blood_pressure_sys := some 120 } =
      HealthScoreCalculator.calculate_overall_score { heart_rate := some 70 } ∧
    ∀ s : ℤ, ("blood_pressure", s) ∉
      (HealthScoreCalculator.calculate_overall_score
        { heart_rate := some 70, blood_pressure_sys := some 120 }).category_scores :=
  bp_requires_both { heart_rate := some 70, blood_pressure_sys := some 120 } (Or.inr rfl)

/-- The logarithm of the male baseline survival is negative. -/
theorem Framingham.log_bs_neg :
    Real.log MALE_COEFFICIENTS.baseline_survival < 0 :=
  Real.log_neg (by norm_num [MALE_COEFFICIENTS]) (by norm_num [MALE_COEFFICIENTS])

/-- The constructed exponent is positive. -/
theorem Framingham.cexExponent_pos : 0 < cexExponent := by
  unfold cexExponent
  rw [div_pos_iff]
  exact Or.inr ⟨Real.log_neg (by norm_num) (by norm_num), log_bs_neg⟩

/-- The constructed input passes validation. -/
theorem Framingham.cex_valid : Valid cexInput :=
  ⟨by norm_num [cexInput], by norm_num [cexInput], Or.inl rfl,
   Real.exp_pos _, by norm_num [cexInput], by norm_num [cexInput]⟩

/-- Coefficient sum of the constructed input. -/
theorem Framingham.coefficient_sum_cex :
    coefficient_sum cexInput =
      MALE_COEFFICIENTS.mean_coefficient_sum + Real.log cexExponent := by
  show MALE_COEFFICIENTS.ln_age * Real.log ((50 : ℤ) : ℝ) +
      MALE_COEFFICIENTS.ln_total_chol * Real.log cexChol +
      MALE_COEFFICIENTS.ln_hdl * Real.log (50 : ℝ) +
      MALE_COEFFICIENTS.ln_sbp_untreated * Real.log (120 : ℝ) + 0 + 0 =
      MALE_COEFFICIENTS.mean_coefficient_sum + Real.log cexExponent
  rw [show Real.log cexChol =
      (MALE_COEFFICIENTS.mean_coefficient_sum + Real.log cexExponent - cexBase) /
        MALE_COEFFICIENTS.ln_total_chol from Real.log_exp _]
  rw [mul_comm (MALE_COEFFICIENTS.ln_total_chol),
    div_mul_cancel₀ _ (by norm_num [MALE_COEFFICIENTS] : MALE_COEFFICIENTS.ln_total_chol ≠ 0)]
  unfold cexBase
  ring

/-- The risk of the constructed input is exactly 59 / 1000. -/
theorem Framingham.risk_cex : risk cexInput = 59 / 1000 := by
  unfold risk
  have hcoef : coefFor cexInput = MALE_COEFFICIENTS := rfl
  rw [hcoef, coefficient_sum_cex]
  have h1 : MALE_COEFFICIENTS.mean_coefficient_sum + Real.log cexExponent -
      MALE_COEFFICIENTS.mean_coefficient_sum = Real.log cexExponent := by ring
  rw [h1, Real.exp_log cexExponent_pos,
    Real.rpow_def_of_pos (by norm_num [MALE_COEFFICIENTS])]
  unfold cexExponent
  rw [mul_comm, div_mul_cancel₀ _ (ne_of_lt log_bs_neg), Real.exp_log (by norm_num)]
  norm_num

/-- Full evaluation of the Framingham calculator at the constructed
input: risk percentage 5.9, level low, score min(100, int(17.7)) = 17. -/
theorem Framingham.calculate_cex :
    calculate cexInput = { risk_percentage := 59 / 10, risk_level := "low", score := 17 } := by
  unfold calculate
  rw [if_pos cex_valid, risk_cex]
  have hr : ((59 : ℝ) / 1000) * 100 * 10 = 59 := by norm_num
  rw [hr]
  have hround : round (59 : ℝ) = 59 := by norm_num [round_eq]
  rw [hround]
  have hcast : ((59 : ℤ) : ℚ) / 10 = 59 / 10 := by norm_num
  rw [hcast]
  show ({ risk_percentage := 59 / 10, risk_level := get_risk_level (59 / 10),
          score := min 100 (ratTrunc (59 / 10 * 3)) } : Output) =
    { risk_percentage := 59 / 10, risk_level := "low", score := 17 }
  have hlevel : get_risk_level (59 / 10) = "low" := by
    unfold get_risk_level
    norm_num
  rw [hlevel]
  have hscore : min (100 : ℤ) (ratTrunc (59 / 10 * 3)) = 17 := by
    norm_num [ratTrunc]
  rw [hscore]

/-- C1 (amended): on every valid input the Framingham calculator returns
the risk 1 - baseline_survival ^ exp(coefficient_sum -
mean_coefficient_sum) of the sex-specific coefficient table as a
percentage rounded to one decimal, the risk level low / medium / high at
the 10 and 20 percent boundaries, and the normalized score
min(100, int(risk_pct * 3)) where int truncates toward zero — not round,
as the original claim stated. -/
theorem framingham_calculate_spec (d : CardiovascularRiskInput) (h : Framingham.Valid d) :
    Framingham.calculate d =
      { risk_percentage :=
          (round ((1 - (Framingham.coefFor d).baseline_survival ^
            Real.exp (Framingham.coefficient_sum d -
              (Framingham.coefFor d).mean_coefficient_sum)) * 100 * 10) : ℚ) / 10
        risk_level :=
          if ((round (Framingham.risk d * 100 * 10) : ℚ) / 10) < 10 then "low"
          else if ((round (Framingham.risk d * 100 * 10) : ℚ) / 10) < 20 then "medium"
          else "high"
        score :=
          min 100 (ratTrunc ((round (Framingham.risk d * 100 * 10) : ℚ) / 10 * 3)) } := by
  unfold Framingham.calculate
  rw [if_pos h]
  rfl

/-- Witness for C1: framingham_calculate_spec applied to the concrete
valid input (age 50, male, cholesterol 200, HDL 50, systolic 120). -/
theorem framingham_calculate_spec_witness :
    Framingham.Valid ⟨50, "男", 200, 50, 120, false, false, false⟩ ∧
    Framingham.calculate ⟨50, "男", 200, 50, 120, false, false, false⟩ =
      { risk_percentage :=
          (round ((1 - (Framingham.coefFor ⟨50, "男", 200, 50, 120, false, false, false⟩).baseline_survival ^
            Real.exp (Framingham.coefficient_sum ⟨50, "男", 200, 50, 120, false, false, false⟩ -
              (Framingham.coefFor ⟨50, "男", 200, 50, 120, false, false, false⟩).mean_coefficient_sum)) * 100 * 10) : ℚ) / 10
        risk_level :=
          if ((round (Framingham.risk ⟨50, "男", 200, 50, 120, false, false, false⟩ * 100 * 10) : ℚ) / 10) < 10 then "low"
          else if ((round (Framingham.risk ⟨50, "男", 200, 50, 120, false, false, false⟩ * 100 * 10) : ℚ) / 10) < 20 then "medium"
          else "high"
        score :=
          min 100 (ratTrunc ((round (Framingham.risk ⟨50, "男", 200, 50, 120, false, false, false⟩ * 100 * 10) : ℚ) / 10 * 3)) } := by
  have hv : Framingham.Valid ⟨50, "男", 200, 50, 120, false, false, false⟩ :=
    ⟨by norm_num, by norm_num, Or.inl rfl, by norm_num, by norm_num, by norm_num⟩
  exact ⟨hv, framingham_calculate_spec _ hv⟩

/-- Counterexample for C1 as stated: at the constructed valid input the
risk percentage is exactly 5.9, the code returns the score
min(100, int(5.9 * 3)) = 17, while min(100, round(5.9 * 3)) = 18. -/
theorem framingham_round_claim_counterexample :
    ¬ ∀ d : CardiovascularRiskInput, Framingham.Valid d →
      (Framingham.calculate d).score =
        min 100 (round ((Framingham.calculate d).risk_percentage * 3)) := by
  intro hall
  have h := hall Framingham.cexInput Framingham.cex_valid
  rw [Framingham.calculate_cex] at h
  norm_num [round_eq] at h

end HealthAgent
